import Mathlib

/-!
Verification of the TasksCompleted backend (Express + Prisma).

The embedding follows `src/backend/src/app.js` (its last, current version:
the module that mounts `router` on `/` and `/api`), `src/backend/prisma/seed.js`
and `src/backend/src/routes/users.routes.js`. Request bodies are JSON, so a
body field is modelled as a JavaScript value (`JSValue`, absent = `vUndefined`)
where the handler coerces it (`String(title).trim()`, `Boolean(completed)`),
and as `Option String` where the handler only tests JS truthiness of a string
field (`!email`, `!password`, `!name`). The Prisma store is a pair of lists;
`findFirst`/`findUnique` are `List.find?`, `create` appends, `update` maps,
`delete` filters. bcrypt and JWT are external collaborators: `hash`/`compare`
are parameters, a signed token is modelled by the payload the code signs
(`{ sub, role }`).
-/

namespace TasksCompleted

/-- A JSON/JavaScript scalar value as it arrives in a request body.
`vUndefined` models an absent field. (Arrays and objects are omitted: no
handler in the source distinguishes them — they would be truthy, like a
non-empty string.) -/
inductive JSValue where
  | vUndefined
  | vNull
  | vBool (b : Bool)
  | vNum (n : Int)
  | vStr (s : String)
deriving DecidableEq, Repr

/-- JavaScript truthiness: `undefined`, `null`, `false`, `0`, `""` are falsy,
everything else is truthy. This is what `if (!x)` and `Boolean(x)` test. -/
def truthy : JSValue → Bool
  | .vUndefined => false
  | .vNull => false
  | .vBool b => b
  | .vNum n => n != 0
  | .vStr s => s != ""

/-- JavaScript `String(v)` on a scalar value. -/
def jsToString : JSValue → String
  | .vUndefined => "undefined"
  | .vNull => "null"
  | .vBool b => if b then "true" else "false"
  | .vNum n => toString n
  | .vStr s => s

/-- JavaScript `String.prototype.trim()`: remove whitespace from both ends
of the string (modelled on the character list with `Char.isWhitespace`,
which covers the ASCII whitespace JS strips). -/
def jsTrim (s : String) : String :=
  ⟨((s.data.dropWhile Char.isWhitespace).reverse.dropWhile Char.isWhitespace).reverse⟩

/-- A persisted `User` row (id, email, password hash column, name, role,
creation time). -/
structure User where
  id : Int
  email : String
  password : String
  name : String
  role : String
  createdAt : Nat
deriving DecidableEq, Repr

/-- A persisted `Task` row. `userId` is the owner (the Prisma relation
`task.userId -> user.id`). -/
structure Task where
  id : Int
  title : String
  completed : Bool
  userId : Int
deriving DecidableEq, Repr

/-- The Prisma store: user and task tables plus the autoincrement counters
and the row-creation clock. -/
structure Store where
  users : List User
  tasks : List Task
  nextUserId : Int
  nextTaskId : Int
  now : Nat
deriving DecidableEq, Repr

/-- A user object as serialized into a response body. `password` is `some h`
exactly when the handler put the password column into the JSON, `none` when
the Prisma `select` (or an explicit object literal) excluded it. -/
structure UserOut where
  id : Int
  email : String
  name : String
  role : String
  createdAt : Nat
  password : Option String
deriving DecidableEq, Repr

/-- The JSON keys of a serialized user object. -/
def UserOut.fieldNames (u : UserOut) : List String :=
  ["id", "email", "name", "role", "createdAt"] ++
    (match u.password with
     | some _ => ["password"]
     | none => [])

/-- Projection `select: { id, email, name, role, createdAt }` that every
handler of the current `app.js` applies to a user row (also the explicit
object literal built by `POST /auth/login`). -/
def selectPublic (u : User) : UserOut :=
  ⟨u.id, u.email, u.name, u.role, u.createdAt, none⟩

/-- Serialization used by `findMany()` without a `select` (the handler in
`src/routes/users.routes.js`): the complete row, password column
included. -/
def selectAll (u : User) : UserOut :=
  ⟨u.id, u.email, u.name, u.role, u.createdAt, some u.password⟩

/-- The payload the code signs: `jwt.sign({ sub: user.id, role: user.role }, …)`.
The signature itself belongs to the external token issuer; the handlers only
choose the payload. -/
structure Token where
  sub : Int
  role : String
deriving DecidableEq, Repr

def signToken (sub : Int) (role : String) : Token := ⟨sub, role⟩

/-- A response: HTTP status plus JSON body. -/
inductive RespBody where
  | jsonError (error : String)
  | jsonUsers (users : List UserOut)
  | jsonUser (user : Option UserOut)
  | jsonUserToken (user : UserOut) (token : Token)
  | jsonTask (t : Task)
  | jsonTasks (ts : List Task)
  | noBody
deriving DecidableEq, Repr

structure HResp where
  status : Nat
  body : RespBody
deriving DecidableEq, Repr

/-- The user objects contained in a response body. -/
def RespBody.usersIn : RespBody → List UserOut
  | .jsonUsers us => us
  | .jsonUser (some u) => [u]
  | .jsonUserToken u _ => [u]
  | _ => []

/-- The task objects contained in a response body. -/
def RespBody.tasksIn : RespBody → List Task
  | .jsonTasks ts => ts
  | .jsonTask t => [t]
  | _ => []

/-- JS truthiness of a string-or-absent body field: `!x` is true for a
missing field and for the empty string. -/
def strTruthy : Option String → Bool
  | none => false
  | some s => s != ""

/-- Modelled from the spec: the Prisma schema file is not under `src/`; per
the spec the `role` column is an enumeration containing at least ADMIN and
USER, and rows created without an explicit role get the non-admin default. -/
def defaultRole : String := "USER"

/-- Handler `router.get "/users"` (current app.js): `findMany` with the
five-field `select`. -/
def getUsers (st : Store) : HResp :=
  ⟨200, .jsonUsers (st.users.map selectPublic)⟩

/-- Handler `router.get "/"` of `src/routes/users.routes.js`: `findMany()`
with no `select`, serializing complete user rows. -/
def usersRoutesGet (st : Store) : HResp :=
  ⟨200, .jsonUsers (st.users.map selectAll)⟩

/-- Handler `router.get "/me"` (current app.js): `findUnique` on the
authenticated id with the five-field `select`; `res.json` of the row or of
`null`. -/
def getMe (st : Store) (uid : Int) : HResp :=
  ⟨200, .jsonUser ((st.users.find? (fun u => u.id == uid)).map selectPublic)⟩

/-- Handler `router.post "/auth/register"` (current app.js). `hash` is
`bcrypt.hash(·, 10)`. Returns the response and the store after the request. -/
def registerUser (hash : String → String) (st : Store)
    (email password name : Option String) : HResp × Store :=
  if !strTruthy email || !strTruthy password || !strTruthy name then
    (⟨400, .jsonError "email, password y name son obligatorios"⟩, st)
  else
    let e := email.getD ""
    let p := password.getD ""
    let n := name.getD ""
    match st.users.find? (fun u => u.email == e) with
    | some _ => (⟨409, .jsonError "Ese email ya existe"⟩, st)
    | none =>
      let u : User := ⟨st.nextUserId, e, hash p, n, defaultRole, st.now⟩
      (⟨201, .jsonUserToken (selectPublic u) (signToken u.id u.role)⟩,
       { st with users := st.users ++ [u], nextUserId := st.nextUserId + 1 })

/-- Handler `router.post "/auth/login"` (current app.js). `compare` is
`bcrypt.compare`. The handler never writes, so only the response is
returned. -/
def loginUser (compare : String → String → Bool) (st : Store)
    (email password : Option String) : HResp :=
  if !strTruthy email || !strTruthy password then
    ⟨400, .jsonError "email y password son obligatorios"⟩
  else
    let e := email.getD ""
    let p := password.getD ""
    match st.users.find? (fun u => u.email == e) with
    | none => ⟨401, .jsonError "Credenciales inválidas"⟩
    | some u =>
      if !compare p u.password then ⟨401, .jsonError "Credenciales inválidas"⟩
      else ⟨200, .jsonUserToken (selectPublic u) (signToken u.id u.role)⟩

/-- The body of `POST /tasks`. The handler destructures only `title`;
`userId` stands for any client-supplied owner field, which the code never
reads. -/
structure CreateTaskBody where
  title : JSValue
  userId : JSValue
deriving DecidableEq, Repr

/-- Handler `router.post "/tasks"` (current app.js): reject a falsy `title`,
else `create({ data: { title: String(title).trim(), userId: req.user.id } })`. -/
def createTask (st : Store) (uid : Int) (body : CreateTaskBody) : HResp × Store :=
  if !truthy body.title then
    (⟨400, .jsonError "title es obligatorio"⟩, st)
  else
    let t : Task := ⟨st.nextTaskId, jsTrim (jsToString body.title), false, uid⟩
    (⟨201, .jsonTask t⟩,
     { st with tasks := st.tasks ++ [t], nextTaskId := st.nextTaskId + 1 })

/-- The body of `PATCH /tasks/:id`: `vUndefined` models an absent field. -/
structure PatchBody where
  title : JSValue
  completed : JSValue
deriving DecidableEq, Repr

/-- The `data` object the PATCH handler builds with the two conditional
spreads: a key is present iff the body field was not `undefined`. -/
structure PatchData where
  title : Option String
  completed : Option Bool
deriving DecidableEq, Repr

def patchData (body : PatchBody) : PatchData :=
  ⟨if body.title = .vUndefined then none else some (jsTrim (jsToString body.title)),
   if body.completed = .vUndefined then none else some (truthy body.completed)⟩

/-- Applying a Prisma `update` data object to a row. -/
def applyPatch (d : PatchData) (t : Task) : Task :=
  { t with
    title := d.title.getD t.title,
    completed := d.completed.getD t.completed }

/-- Handler `router.patch "/tasks/:id"` (current app.js). `idVal` is
`Number(req.params.id)` with `none` for `NaN`. Order as in the source:
NaN check, empty-`data` check (`Object.keys(data).length === 0`),
`findFirst({ where: { id, userId } })`, then `update({ where: { id } })`. -/
def patchTask (st : Store) (uid : Int) (idVal : Option Int) (body : PatchBody) :
    HResp × Store :=
  match idVal with
  | none => (⟨400, .jsonError "id inválido"⟩, st)
  | some id =>
    let d := patchData body
    if d.title.isNone && d.completed.isNone then
      (⟨400, .jsonError "Nada que actualizar"⟩, st)
    else
      match st.tasks.find? (fun t => t.id == id && t.userId == uid) with
      | none => (⟨404, .jsonError "Tarea no encontrada"⟩, st)
      | some t0 =>
        (⟨200, .jsonTask (applyPatch d t0)⟩,
         { st with tasks := st.tasks.map (fun t => if t.id == id then applyPatch d t else t) })

/-- Handler `router.delete "/tasks/:id"` (current app.js): NaN check,
`findFirst({ where: { id, userId } })`, then `delete({ where: { id } })`
and an empty 204. -/
def deleteTask (st : Store) (uid : Int) (idVal : Option Int) : HResp × Store :=
  match idVal with
  | none => (⟨400, .jsonError "id inválido"⟩, st)
  | some id =>
    match st.tasks.find? (fun t => t.id == id && t.userId == uid) with
    | none => (⟨404, .jsonError "Tarea no encontrada"⟩, st)
    | some _ =>
      (⟨204, .noBody⟩, { st with tasks := st.tasks.filter (fun t => !(t.id == id)) })

/-- Handler `router.get "/tasks"` (current app.js): the tasks of the caller
(`where: { userId: req.user.id }`; the `createdAt`-desc ordering is not
modelled — `Task` rows carry no timestamp here). -/
def listTasks (st : Store) (uid : Int) : HResp :=
  ⟨200, .jsonTasks (st.tasks.filter (fun t => t.userId == uid))⟩

/-- The user row `prisma/seed.js` creates (`main`): literal plaintext
password, role ADMIN, linked to the freshly created company. -/
structure SeedUser where
  email : String
  name : String
  password : String
  role : String
  companyId : Int
deriving DecidableEq, Repr

/-- Function `main` of `prisma/seed.js`: creates the company
"TasksCompleted", then the admin user with `password: "admin123"` stored
as-is. -/
def seedMain (companyId : Int) : SeedUser :=
  ⟨"admin@taskscompleted.com", "Admin", "admin123", "ADMIN", companyId⟩

/-- Outcome of `start()` in the current app.js. -/
inductive StartResult where
  | failed (msg : String)
  | listening (port : Int)
deriving DecidableEq, Repr

/-- Function `start()` of the current app.js. `JWT_SECRET = process.env.JWT_SECRET || ""`
(absent env var ↦ `""`); `if (!JWT_SECRET) throw new Error(...)` fires before
`prisma.$connect()` and `app.listen`; a connect failure (`dbError = some m`)
also rejects, and `start().catch` exits — the service never listens. -/
def startService (jwtSecretEnv : Option String) (dbError : Option String)
    (port : Int) : StartResult :=
  let secret := jwtSecretEnv.getD ""
  if secret = "" then .failed "Falta JWT_SECRET en el .env"
  else
    match dbError with
    | some m => .failed m
    | none => .listening port

/-- A concrete stand-in for `bcrypt.hash` used in witnesses. -/
def wHash (s : String) : String := s ++ "#h"

/-- A concrete stand-in for `bcrypt.compare` matching `wHash`. -/
def wCompare (p h : String) : Bool := (p ++ "#h") == h

/-- A concrete user row for witnesses (password column already hashed). -/
def wUser : User := ⟨1, "ann@ex.com", "s3cret#h", "Ann", "USER", 0⟩

/-- A concrete store for witnesses: one user, one task owned by user 7. -/
def wStore : Store := ⟨[wUser], [⟨1, "old", false, 7⟩], 2, 2, 0⟩

/-- C1: for an authenticated task update or delete, the operation succeeds
iff the lookup of the pair (task id, ownerId = caller id) finds a matching
record; when no such record exists — the task is absent or owned by another
user — the response is 404 with the generic not-found error and the store is
unchanged; no task update/delete ever answers 403 forbidden; and a read
(GET /tasks) exposes a stored task iff the caller owns it. -/
theorem task_access_iff_owner_lookup (st : Store) (uid id : Int) (body : PatchBody)
    (hb : ((patchData body).title.isNone && (patchData body).completed.isNone) = false) :
    ((patchTask st uid (some id) body).1.status = 200 ↔
      ∃ t ∈ st.tasks, t.id = id ∧ t.userId = uid) ∧
    ((deleteTask st uid (some id)).1.status = 204 ↔
      ∃ t ∈ st.tasks, t.id = id ∧ t.userId = uid) ∧
    (st.tasks.find? (fun t => t.id == id && t.userId == uid) = none →
      patchTask st uid (some id) body = (⟨404, .jsonError "Tarea no encontrada"⟩, st) ∧
      deleteTask st uid (some id) = (⟨404, .jsonError "Tarea no encontrada"⟩, st)) ∧
    (∀ idv : Option Int, (patchTask st uid idv body).1.status ≠ 403 ∧
      (deleteTask st uid idv).1.status ≠ 403) ∧
    (∀ t ∈ st.tasks, t ∈ (listTasks st uid).body.tasksIn ↔ t.userId = uid) := by
  have hpn : st.tasks.find? (fun t => t.id == id && t.userId == uid) = none →
      patchTask st uid (some id) body = (⟨404, .jsonError "Tarea no encontrada"⟩, st) := by
    intro hf
    simp [patchTask, hb, hf]
  have hps : ∀ t0, st.tasks.find? (fun t => t.id == id && t.userId == uid) = some t0 →
      (patchTask st uid (some id) body).1 =
        ⟨200, .jsonTask (applyPatch (patchData body) t0)⟩ := by
    intro t0 hf
    simp [patchTask, hb, hf]
  have hdn : st.tasks.find? (fun t => t.id == id && t.userId == uid) = none →
      deleteTask st uid (some id) = (⟨404, .jsonError "Tarea no encontrada"⟩, st) := by
    intro hf
    simp [deleteTask, hf]
  have hds : ∀ t0, st.tasks.find? (fun t => t.id == id && t.userId == uid) = some t0 →
      (deleteTask st uid (some id)).1 = ⟨204, .noBody⟩ := by
    intro t0 hf
    simp [deleteTask, hf]
  have hex : (∃ t ∈ st.tasks, t.id = id ∧ t.userId = uid) →
      ∃ t0, st.tasks.find? (fun t => t.id == id && t.userId == uid) = some t0 := by
    rintro ⟨t, ht, hid, huid⟩
    cases hf : st.tasks.find? (fun t => t.id == id && t.userId == uid) with
    | some t0 => exact ⟨t0, rfl⟩
    | none =>
      have := List.find?_eq_none.mp hf t ht
      simp [hid, huid] at this
  refine ⟨?_, ?_, fun hf => ⟨hpn hf, hdn hf⟩, ?_, ?_⟩
  · constructor
    · intro h200
      cases hf : st.tasks.find? (fun t => t.id == id && t.userId == uid) with
      | none =>
        rw [hpn hf] at h200
        simp at h200
      | some t0 =>
        refine ⟨t0, List.mem_of_find?_eq_some hf, ?_⟩
        have := List.find?_some hf
        simpa using this
    · intro h
      obtain ⟨t0, hf⟩ := hex h
      rw [hps t0 hf]
  · constructor
    · intro h204
      cases hf : st.tasks.find? (fun t => t.id == id && t.userId == uid) with
      | none =>
        rw [hdn hf] at h204
        simp at h204
      | some t0 =>
        refine ⟨t0, List.mem_of_find?_eq_some hf, ?_⟩
        have := List.find?_some hf
        simpa using this
    · intro h
      obtain ⟨t0, hf⟩ := hex h
      rw [hds t0 hf]
  · intro idv
    cases idv with
    | none => exact ⟨by simp [patchTask], by simp [deleteTask]⟩
    | some i =>
      constructor
      · cases hf : st.tasks.find? (fun t => t.id == i && t.userId == uid) with
        | none => simp [patchTask, hb, hf]
        | some t0 => simp [patchTask, hb, hf]
      · cases hf : st.tasks.find? (fun t => t.id == i && t.userId == uid) with
        | none => simp [deleteTask, hf]
        | some t0 => simp [deleteTask, hf]
  · intro t ht
    simp [listTasks, RespBody.tasksIn, List.mem_filter, ht]

/-- Witness for C1 at concrete inputs: owner 7 updates task 1 successfully;
user 9 deleting the same task gets 404 and the store is unchanged. -/
theorem task_access_iff_owner_lookup_witness :
    (patchTask wStore 7 (some 1) ⟨.vStr "new", .vUndefined⟩).1.status = 200 ∧
    deleteTask wStore 9 (some 1) = (⟨404, .jsonError "Tarea no encontrada"⟩, wStore) :=
  ⟨(task_access_iff_owner_lookup wStore 7 1 ⟨.vStr "new", .vUndefined⟩ (by decide)).1.mpr
      ⟨⟨1, "old", false, 7⟩, by decide, by decide, by decide⟩,
   ((task_access_iff_owner_lookup wStore 9 1 ⟨.vStr "new", .vUndefined⟩ (by decide)).2.2.1
      (by decide)).2⟩

/-- C2: every user object in a response of GET /users, GET /me,
POST /auth/register or POST /auth/login of the current app.js carries
exactly the keys id, email, name, role, createdAt — never the password
column. -/
theorem responses_omit_password_hash (hash : String → String)
    (compare : String → String → Bool) (st : Store) (uid : Int)
    (email password name : Option String) :
    (∀ u ∈ (getUsers st).body.usersIn,
      u.fieldNames = ["id", "email", "name", "role", "createdAt"]) ∧
    (∀ u ∈ (getMe st uid).body.usersIn,
      u.fieldNames = ["id", "email", "name", "role", "createdAt"]) ∧
    (∀ u ∈ ((registerUser hash st email password name).1).body.usersIn,
      u.fieldNames = ["id", "email", "name", "role", "createdAt"]) ∧
    (∀ u ∈ (loginUser compare st email password).body.usersIn,
      u.fieldNames = ["id", "email", "name", "role", "createdAt"]) := by
  have hsel : ∀ x : User,
      (selectPublic x).fieldNames = ["id", "email", "name", "role", "createdAt"] :=
    fun x => rfl
  refine ⟨?_, ?_, ?_, ?_⟩
  · intro u hu
    simp only [getUsers, RespBody.usersIn, List.mem_map] at hu
    obtain ⟨x, -, rfl⟩ := hu
    exact hsel x
  · intro u hu
    cases h : st.users.find? (fun x => x.id == uid) with
    | none => simp [getMe, RespBody.usersIn, h] at hu
    | some x =>
      simp [getMe, RespBody.usersIn, h] at hu
      subst hu
      exact hsel x
  · intro u hu
    by_cases hv : (!strTruthy email || !strTruthy password || !strTruthy name) = true
    · simp [registerUser, hv, RespBody.usersIn] at hu
    · cases h : st.users.find? (fun x => x.email == email.getD "") with
      | some x => simp [registerUser, hv, h, RespBody.usersIn] at hu
      | none =>
        simp [registerUser, hv, h, RespBody.usersIn] at hu
        subst hu
        exact hsel _
  · intro u hu
    by_cases hv : (!strTruthy email || !strTruthy password) = true
    · simp [loginUser, hv, RespBody.usersIn] at hu
    · cases h : st.users.find? (fun x => x.email == email.getD "") with
      | none => simp [loginUser, hv, h, RespBody.usersIn] at hu
      | some x =>
        by_cases hc : (!compare (password.getD "") x.password) = true
        · simp [loginUser, hv, h, hc, RespBody.usersIn] at hu
        · simp [loginUser, hv, h, hc, RespBody.usersIn] at hu
          subst hu
          exact hsel x

/-- Witness for C2: the single user object GET /users answers over the
concrete store has exactly the five public keys. -/
theorem responses_omit_password_hash_witness :
    (selectPublic wUser).fieldNames = ["id", "email", "name", "role", "createdAt"] :=
  (responses_omit_password_hash wHash wCompare wStore 1 none none none).1
    (selectPublic wUser) (by decide)

/-- C3 (evaluation at the failing input): the seed script persists the admin
user with the password column equal to the literal plaintext "admin123" —
not a one-way hash of it — contradicting the invariant the claim states. -/
theorem seed_stores_plaintext_password (companyId : Int) :
    (seedMain companyId).password = "admin123" ∧ (seedMain companyId).role = "ADMIN" :=
  ⟨rfl, rfl⟩

/-- C4 counterexample: a whitespace-only title is not rejected. PATCH of
task 1 with title "  " answers 200 and stores the empty title, and POST
/tasks with title "  " answers 201 and stores the empty title. -/
theorem whitespace_title_stored_not_rejected :
    (patchTask wStore 7 (some 1) ⟨.vStr "  ", .vUndefined⟩).1.status = 200 ∧
    (⟨1, "", false, 7⟩ : Task) ∈ (patchTask wStore 7 (some 1) ⟨.vStr "  ", .vUndefined⟩).2.tasks ∧
    (createTask wStore 7 ⟨.vStr "  ", .vUndefined⟩).1 = ⟨201, .jsonTask ⟨2, "", false, 7⟩⟩ := by
  decide

/-- C4 amended: titles are trimmed of surrounding whitespace before storage
in both POST /tasks and PATCH /tasks/:id; POST rejects exactly the falsy
titles (absent, empty string, 0, false, null) with 400; a title that is
whitespace-only — truthy before the trim, empty after it — passes validation
and is stored as the empty string. -/
theorem title_trimmed_only_falsy_rejected (st : Store) (uid id : Int)
    (b : CreateTaskBody) (v : JSValue) (t0 : Task)
    (hb : truthy b.title = true) (hv : v ≠ JSValue.vUndefined)
    (hf : st.tasks.find? (fun t => t.id == id && t.userId == uid) = some t0) :
    (createTask st uid b).1 =
      ⟨201, .jsonTask ⟨st.nextTaskId, jsTrim (jsToString b.title), false, uid⟩⟩ ∧
    (patchTask st uid (some id) ⟨v, .vUndefined⟩).1 =
      ⟨200, .jsonTask { t0 with title := jsTrim (jsToString v) }⟩ ∧
    (∀ b2 : CreateTaskBody, truthy b2.title = false →
      createTask st uid b2 = (⟨400, .jsonError "title es obligatorio"⟩, st)) := by
  refine ⟨by simp [createTask, hb], ?_, fun b2 hb2 => by simp [createTask, hb2]⟩
  have hd : patchData ⟨v, .vUndefined⟩ = ⟨some (jsTrim (jsToString v)), none⟩ := by
    simp [patchData, hv]
  simp [patchTask, hd, hf, applyPatch]

/-- Witness for C4 amended: creating with title "  milk  " stores "milk";
patching task 1 with the whitespace-only title "  " succeeds and returns the
task with the empty title; creating with the empty title is rejected 400. -/
theorem title_trimmed_only_falsy_rejected_witness :
    (createTask wStore 7 ⟨.vStr "  milk  ", .vNull⟩).1 =
      ⟨201, .jsonTask ⟨2, "milk", false, 7⟩⟩ ∧
    (patchTask wStore 7 (some 1) ⟨.vStr "  ", .vUndefined⟩).1 =
      ⟨200, .jsonTask ⟨1, "", false, 7⟩⟩ ∧
    createTask wStore 7 ⟨.vStr "", .vNull⟩ =
      (⟨400, .jsonError "title es obligatorio"⟩, wStore) := by
  have h := title_trimmed_only_falsy_rejected wStore 7 1 ⟨.vStr "  milk  ", .vNull⟩
    (.vStr "  ") ⟨1, "old", false, 7⟩ (by decide) (by decide) (by decide)
  exact ⟨h.1, h.2.1, h.2.2 ⟨.vStr "", .vNull⟩ (by decide)⟩

/-- C5: POST /tasks binds the new task owner to the authenticated subject
id, and the response and resulting store are identical for any two bodies
that agree on `title` — a client-supplied owner field is never read. -/
theorem create_binds_owner_ignores_client_owner (st : Store) (uid : Int)
    (b b2 : CreateTaskBody) (hb : truthy b.title = true) (ht : b2.title = b.title) :
    (createTask st uid b).1 =
      ⟨201, .jsonTask ⟨st.nextTaskId, jsTrim (jsToString b.title), false, uid⟩⟩ ∧
    (∀ t : Task, (createTask st uid b).1.body = .jsonTask t → t.userId = uid) ∧
    createTask st uid b2 = createTask st uid b := by
  have h1 : (createTask st uid b).1 =
      ⟨201, .jsonTask ⟨st.nextTaskId, jsTrim (jsToString b.title), false, uid⟩⟩ := by
    simp [createTask, hb]
  refine ⟨h1, ?_, by simp [createTask, ht]⟩
  intro t hbody
  rw [h1] at hbody
  have h2 : RespBody.jsonTask ⟨st.nextTaskId, jsTrim (jsToString b.title), false, uid⟩ =
      .jsonTask t := hbody
  injection h2 with h3
  rw [← h3]

/-- Witness for C5: creating "milk" as user 7 yields a task owned by 7, and
two bodies differing only in the client-supplied owner field give identical
results. -/
theorem create_binds_owner_ignores_client_owner_witness :
    (createTask wStore 7 ⟨.vStr "milk", .vNum 99⟩).1 =
      ⟨201, .jsonTask ⟨2, "milk", false, 7⟩⟩ ∧
    createTask wStore 7 ⟨.vStr "milk", .vStr "evil"⟩ =
      createTask wStore 7 ⟨.vStr "milk", .vNum 99⟩ := by
  have h := create_binds_owner_ignores_client_owner wStore 7 ⟨.vStr "milk", .vNum 99⟩
    ⟨.vStr "milk", .vStr "evil"⟩ (by decide) rfl
  exact ⟨h.1, h.2.2⟩

/-- C6: with both fields present, login with an unknown email and login with
a known email but failing password verification produce the identical
response: the same 401 status and the same error body. -/
theorem login_uniform_failure (compare : String → String → Bool) (st : Store)
    (e1 p1 e2 p2 : Option String) (u : User)
    (he1 : strTruthy e1 = true) (hp1 : strTruthy p1 = true)
    (he2 : strTruthy e2 = true) (hp2 : strTruthy p2 = true)
    (h1 : st.users.find? (fun x => x.email == e1.getD "") = none)
    (h2 : st.users.find? (fun x => x.email == e2.getD "") = some u)
    (hbad : compare (p2.getD "") u.password = false) :
    loginUser compare st e1 p1 = loginUser compare st e2 p2 ∧
    loginUser compare st e1 p1 = ⟨401, .jsonError "Credenciales inválidas"⟩ := by
  have ha : loginUser compare st e1 p1 = ⟨401, .jsonError "Credenciales inválidas"⟩ := by
    simp [loginUser, he1, hp1, h1]
  have hb2 : loginUser compare st e2 p2 = ⟨401, .jsonError "Credenciales inválidas"⟩ := by
    simp [loginUser, he2, hp2, h2, hbad]
  exact ⟨ha.trans hb2.symm, ha⟩

/-- Witness for C6: against the concrete store, login with an unregistered
email and login with the registered email but a wrong password answer the
same 401 response. -/
theorem login_uniform_failure_witness :
    loginUser wCompare wStore (some "nobody@ex.com") (some "pw") =
      loginUser wCompare wStore (some "ann@ex.com") (some "wrong") ∧
    loginUser wCompare wStore (some "nobody@ex.com") (some "pw") =
      ⟨401, .jsonError "Credenciales inválidas"⟩ :=
  login_uniform_failure wCompare wStore (some "nobody@ex.com") (some "pw")
    (some "ann@ex.com") (some "wrong") wUser (by decide) (by decide) (by decide)
    (by decide) (by decide) (by decide) (by decide)

/-- C7: registration answers 400 when email, password or name is missing or
empty, and the store is unchanged; answers 409 with the duplicate-email
error and an unchanged store when the email already exists; otherwise it
persists the user with the hashed password and answers 201 with the public
user object (no password key) and the token for the new id. -/
theorem register_contract (hash : String → String) (st : Store)
    (email password name : Option String) :
    ((strTruthy email = false ∨ strTruthy password = false ∨ strTruthy name = false) →
      registerUser hash st email password name =
        (⟨400, .jsonError "email, password y name son obligatorios"⟩, st)) ∧
    (strTruthy email = true → strTruthy password = true → strTruthy name = true →
      (∀ u0, st.users.find? (fun u => u.email == email.getD "") = some u0 →
        registerUser hash st email password name =
          (⟨409, .jsonError "Ese email ya existe"⟩, st)) ∧
      (st.users.find? (fun u => u.email == email.getD "") = none →
        registerUser hash st email password name =
          (⟨201,
            .jsonUserToken
              ⟨st.nextUserId, email.getD "", name.getD "", defaultRole, st.now, none⟩
              ⟨st.nextUserId, defaultRole⟩⟩,
           { st with
              users := st.users ++
                [⟨st.nextUserId, email.getD "", hash (password.getD ""),
                  name.getD "", defaultRole, st.now⟩],
              nextUserId := st.nextUserId + 1 }))) := by
  constructor
  · intro hf
    have hcond : (!strTruthy email || !strTruthy password || !strTruthy name) = true := by
      rcases hf with h | h | h <;> simp [h]
    simp [registerUser, hcond]
  · intro he hp hn
    have hcond : (!strTruthy email || !strTruthy password || !strTruthy name) = false := by
      simp [he, hp, hn]
    constructor
    · intro u0 h0
      simp [registerUser, hcond, h0]
    · intro h0
      simp [registerUser, hcond, h0, selectPublic, signToken]

/-- Witness for C7: registering a fresh email against the concrete store
persists the user with the hashed password and answers 201 with the public
user object and token. -/
theorem register_contract_witness :
    registerUser wHash wStore (some "bob@ex.com") (some "pw") (some "Bob") =
      (⟨201, .jsonUserToken ⟨2, "bob@ex.com", "Bob", "USER", 0, none⟩ ⟨2, "USER"⟩⟩,
       ⟨[wUser, ⟨2, "bob@ex.com", "pw#h", "Bob", "USER", 0⟩],
        [⟨1, "old", false, 7⟩], 3, 2, 0⟩) :=
  ((register_contract wHash wStore (some "bob@ex.com") (some "pw") (some "Bob")).2
    (by decide) (by decide) (by decide)).2 (by decide)

/-- C8: when the signing-secret environment variable is absent or empty,
`start` throws before `app.listen` — the startup fails with the fatal
configuration error and the service never listens. -/
theorem missing_secret_startup_fatal (jwtSecretEnv dbError : Option String)
    (port : Int) (h : jwtSecretEnv.getD "" = "") :
    startService jwtSecretEnv dbError port = .failed "Falta JWT_SECRET en el .env" ∧
    ∀ p : Int, startService jwtSecretEnv dbError port ≠ .listening p := by
  have hs : startService jwtSecretEnv dbError port =
      .failed "Falta JWT_SECRET en el .env" := by
    simp [startService, h]
  refine ⟨hs, fun p hcontra => ?_⟩
  rw [hs] at hcontra
  cases hcontra

/-- Witness for C8: with the environment variable absent, startup fails and
the service is not listening. -/
theorem missing_secret_startup_fatal_witness :
    startService none none 4000 = .failed "Falta JWT_SECRET en el .env" ∧
    startService none none 4000 ≠ .listening 4000 :=
  ⟨(missing_secret_startup_fatal none none 4000 rfl).1,
   (missing_secret_startup_fatal none none 4000 rfl).2 4000⟩

/-- C9: a PATCH whose body has neither a title nor a completed field answers
400 — invalid-id or nothing-to-update — and leaves the store unchanged, so
it never answers 200. -/
theorem patch_without_fields_rejected (st : Store) (uid : Int) (idVal : Option Int) :
    (patchTask st uid idVal ⟨.vUndefined, .vUndefined⟩).1.status = 400 ∧
    (patchTask st uid idVal ⟨.vUndefined, .vUndefined⟩).2 = st := by
  cases idVal with
  | none => exact ⟨rfl, rfl⟩
  | some i => exact ⟨rfl, rfl⟩

/-- C10: PATCH stores for `completed` the JavaScript coercion
`Boolean(completed)` with no type validation: for every supplied value the
response is 200 with the task whose completed flag is the truthiness of the
value, that task is stored, and in particular the string "false" coerces to
true while 0, null and the empty string coerce to false. -/
theorem patch_completed_boolean_coercion (st : Store) (uid id : Int)
    (t0 : Task) (v : JSValue) (hv : v ≠ JSValue.vUndefined)
    (hf : st.tasks.find? (fun t => t.id == id && t.userId == uid) = some t0) :
    (patchTask st uid (some id) ⟨.vUndefined, v⟩).1 =
      ⟨200, .jsonTask { t0 with completed := truthy v }⟩ ∧
    { t0 with completed := truthy v } ∈
      (patchTask st uid (some id) ⟨.vUndefined, v⟩).2.tasks ∧
    truthy (.vStr "false") = true ∧ truthy (.vNum 0) = false ∧
    truthy .vNull = false ∧ truthy (.vStr "") = false := by
  have hd : patchData ⟨.vUndefined, v⟩ = ⟨none, some (truthy v)⟩ := by
    simp [patchData, hv]
  have hmem := List.mem_of_find?_eq_some hf
  have hpred := List.find?_some hf
  simp only [Bool.and_eq_true, beq_iff_eq] at hpred
  have hid : (t0.id == id) = true := by simp [hpred.1]
  refine ⟨?_, ?_, rfl, rfl, rfl, rfl⟩
  · simp [patchTask, hd, hf, applyPatch]
  · simp only [patchTask, hd, hf]
    refine List.mem_map.mpr ⟨t0, hmem, ?_⟩
    simp [hid, applyPatch]

/-- Witness for C10: patching task 1 with `completed: "false"` answers 200
and sets completed to true. -/
theorem patch_completed_boolean_coercion_witness :
    (patchTask wStore 7 (some 1) ⟨.vUndefined, .vStr "false"⟩).1 =
      ⟨200, .jsonTask ⟨1, "old", true, 7⟩⟩ :=
  (patch_completed_boolean_coercion wStore 7 1 ⟨1, "old", false, 7⟩ (.vStr "false")
    (by decide) (by decide)).1

end TasksCompleted
